import Mathlib

/-! # Verification of the api_layer data-access core

Shallow embedding of the data-access layer of the `api_layer` repository:
the query compiler (`QueryBuilder.build_filter_clause`,
`QueryBuilder.build_search_clause`, `quote_identifier`,
`is_non_searchable_column`), the service orchestration
(`SnowflakeService.get_opportunities`) and the connection pool
(`SnowflakeConnectionPool`).

The repository carries two variants of the query compiler and the service:
`src/docs/snowflake.py` is embedded in namespace `SF` and
`src/docs/lambda_function.py` in namespace `LF`.  Helper functions whose
bodies are textually identical in the two files (`quote_identifier`,
`is_non_searchable_column`, the inner `column_exists`, the Min/Max loop,
the dataAvailability block, the search-term loop body) are defined once at
top level and reused by both namespaces.

Python strings are modelled as Lean `String`; every Python string method
used by the source is re-implemented over `String.data` (the character
list) so that all definitions evaluate by kernel reduction.
-/

/-! ## Python-level values and primitives -/

/-- A Python value as it can appear in a filter/search request object
(JSON-shaped data: strings, ints, bools, None, lists, dicts with string
keys).  Python floats do not occur in any claim and are not modelled;
`int` covers the numeric case. -/
inductive PyVal where
  | str (s : String)
  | int (n : Int)
  | bool (b : Bool)
  | none
  | list (vs : List PyVal)
  | dict (kvs : List (String × PyVal))

/-- A Python dict is modelled as an association list in insertion order
(Python dicts iterate in insertion order). -/
abbrev Filters := List (String × PyVal)

/-- A result row of `execute_query`: a dict from column name to value. -/
abbrev Row := List (String × PyVal)

/-- Python `d[k]` / `d.get(k)`: first binding of the key. -/
def fget (f : Filters) (k : String) : Option PyVal :=
  (f.find? (fun kv => kv.1 == k)).map (fun kv => kv.2)

/-- Python `s.endswith(suffix)`. -/
def pyEndsWith (s suffix : String) : Bool := suffix.data.isSuffixOf s.data

/-- Python `s.startswith(p)`. -/
def pyStartsWith (s p : String) : Bool := p.data.isPrefixOf s.data

/-- Whether `pat` occurs as a contiguous sublist. -/
def hasSubList (pat : List Char) : List Char → Bool
  | [] => pat.isEmpty
  | c :: rest => pat.isPrefixOf (c :: rest) || hasSubList pat rest

/-- Python `needle in haystack` on strings. -/
def pyIn (needle haystack : String) : Bool := hasSubList needle.data haystack.data

/-- Python `s.lower()` (ASCII data in this repository). -/
def pyLower (s : String) : String := ⟨s.data.map Char.toLower⟩

/-- Python `s[:-n]`. -/
def pyDropRight (s : String) (n : Nat) : String := ⟨s.data.take (s.data.length - n)⟩

/-- Python `s[n:]`. -/
def pyDrop (s : String) (n : Nat) : String := ⟨s.data.drop n⟩

/-- Characters Python's `str.strip()` removes by default. -/
def pyIsSpaceChar (c : Char) : Bool :=
  c == ' ' || c == '\t' || c == '\n' || c == '\r' || c == '\x0b' || c == '\x0c'

/-- Python `s.strip()`. -/
def pyStrip (s : String) : String :=
  ⟨((s.data.dropWhile pyIsSpaceChar).reverse.dropWhile pyIsSpaceChar).reverse⟩

/-- Helper of `pySplit`: accumulate the current field (reversed). -/
def splitCharAux (sep : Char) : List Char → List Char → List (List Char)
  | [], acc => [acc.reverse]
  | c :: rest, acc =>
      if c == sep then acc.reverse :: splitCharAux sep rest []
      else splitCharAux sep rest (c :: acc)

/-- Python `s.split(sep)` for a one-character separator (the only form the
source uses: `keywords.split(",")`).  Keeps empty fields, `"".split(",")
== [""]`. -/
def pySplit (sep : Char) (s : String) : List String :=
  (splitCharAux sep s.data []).map (fun l => ⟨l⟩)

/-- Python `s.replace("'", "''")`: every single quote is doubled.  The
pattern is a single character, so the replacement is exactly this
character-wise expansion. -/
def escQ (s : String) : String :=
  ⟨s.data.flatMap (fun c => if c == '\'' then ['\'', '\''] else [c])⟩

/-- Every single quote in the character list is immediately followed by a
second one (quote-doubling discipline for SQL string literals). -/
def quotesDoubled : List Char → Bool
  | [] => true
  | c :: rest =>
      if c == '\'' then
        match rest with
        | c2 :: rest2 => c2 == '\'' && quotesDoubled rest2
        | [] => false
      else quotesDoubled rest

/-- Python truthiness for the modelled values. -/
def pyTruthy : PyVal → Bool
  | .str s => !s.data.isEmpty
  | .int n => n != 0
  | .bool b => b
  | .none => false
  | .list vs => !vs.isEmpty
  | .dict kvs => !kvs.isEmpty

/-- Python `isinstance(v, (int, float))`.  `bool` is a subclass of `int`
in Python, so booleans satisfy it. -/
def pyIsNum : PyVal → Bool
  | .int _ => true
  | .bool _ => true
  | _ => false

/-- Python `s.isdigit()` for ASCII data. -/
def pyIsDigit (s : String) : Bool := !s.data.isEmpty && s.data.all Char.isDigit

/-- CPython `repr` of a string, for the printable-ASCII strings this
repository handles: single-quote delimiters, switching to double quotes
when the string contains a single quote but no double quote, with
backslash escaping otherwise. -/
def pyReprStrLit (s : String) : String :=
  if s.data.contains '\'' && !(s.data.contains '"') then "\"" ++ s ++ "\""
  else
    "'" ++ (⟨s.data.flatMap (fun c =>
      if c == '\\' then ['\\', '\\']
      else if c == '\'' then ['\\', '\'']
      else [c])⟩ : String) ++ "'"

mutual

/-- CPython `repr` of a value (used by `str` on the elements of
containers). -/
def pyReprV : PyVal → String
  | .str s => pyReprStrLit s
  | .int n => toString n
  | .bool b => if b then "True" else "False"
  | .none => "None"
  | .list vs => "[" ++ String.intercalate ", " (pyReprList vs) ++ "]"
  | .dict kvs => "\x7b" ++ String.intercalate ", " (pyReprPairs kvs) ++ "\x7d"

def pyReprList : List PyVal → List String
  | [] => []
  | v :: vs => pyReprV v :: pyReprList vs

def pyReprPairs : List (String × PyVal) → List String
  | [] => []
  | kv :: kvs => (pyReprStrLit kv.1 ++ ": " ++ pyReprV kv.2) :: pyReprPairs kvs

end

/-- Python `str(v)` / f-string interpolation of a value. -/
def pyStr : PyVal → String
  | .str s => s
  | .int n => toString n
  | .bool b => if b then "True" else "False"
  | .none => "None"
  | .list vs => "[" ++ String.intercalate ", " (pyReprList vs) ++ "]"
  | .dict kvs => "\x7b" ++ String.intercalate ", " (pyReprPairs kvs) ++ "\x7d"

/-! ## Query-builder helpers shared by both files

`quote_identifier`, `is_non_searchable_column`, the inner `column_exists`,
the Min/Max loop, the dataAvailability block and the search-term loop body
are textually identical in `snowflake.py` and `lambda_function.py`; they
are defined once here. -/

/-- `QueryBuilder.quote_identifier`: wrap in double quotes unless already
so wrapped. -/
def quote_identifier (identifier : String) : String :=
  if pyStartsWith identifier "\"" && pyEndsWith identifier "\"" then identifier
  else "\"" ++ identifier ++ "\""

/-- `QueryBuilder.is_non_searchable_column`: id-like columns and
date/time-like columns are excluded from free-text search. -/
def is_non_searchable_column (col_name : String) : Bool :=
  let col_lower := pyLower col_name
  if col_lower == "id" || pyEndsWith col_lower "_id"
      || (pyEndsWith col_lower "id" && col_lower.data.length > 2) then true
  else if pyIn "date" col_lower || pyIn "time" col_lower || pyIn "timestamp" col_lower
      || pyIn "created" col_lower || pyIn "updated" col_lower
      || pyIn "modified" col_lower then true
  else false

/-- The inner `column_exists` of `build_filter_clause`:
`not column_names or col_name in column_names`.  `column_names` is
`Optional[List[str]]`; both `None` and the empty list are falsy, so both
disable the allow-list. -/
def column_exists (column_names : Option (List String)) (col_name : String) : Bool :=
  match column_names with
  | Option.none => true
  | Option.some l => l.isEmpty || l.contains col_name

/-- The Min/Max loop (identical in both files): for every key ending in
`Min`/`Max` whose base column passes `column_exists`, emit
`col >= value` / `col <= value`.  The value is interpolated raw
(`f"... >= {filters[key]}"`), without escaping or quoting. -/
def min_max_conds (filters : Filters) (column_names : Option (List String)) : List String :=
  filters.flatMap (fun kv =>
    let key := kv.1
    (if pyEndsWith key "Min" && column_exists column_names (pyDropRight key 3) then
      [quote_identifier (pyDropRight key 3) ++ " >= " ++ pyStr ((fget filters key).getD PyVal.none)]
    else [])
    ++
    (if pyEndsWith key "Max" && column_exists column_names (pyDropRight key 3) then
      [quote_identifier (pyDropRight key 3) ++ " <= " ++ pyStr ((fget filters key).getD PyVal.none)]
    else []))

/-- The dataAvailability block (identical in both files): for every
catalog column listed under `dataAvailability`, require
`col IS NOT NULL AND col <> ''`; the set is parenthesized and joined by
the request operator.  Guarded by `filters.get("dataAvailability") and
isinstance(..., list)`, i.e. a non-empty list.  Non-string fields are
dropped (a non-string never equals a catalog entry). -/
def data_availability_conds (filters : Filters) (column_names : Option (List String))
    (operator : String) : List String :=
  match fget filters "dataAvailability" with
  | Option.some (PyVal.list fields) =>
      if fields.isEmpty then []
      else
        let data_avail_conditions := fields.filterMap (fun field =>
          match field with
          | PyVal.str f =>
              if column_exists column_names f then
                Option.some (quote_identifier f ++ " IS NOT NULL AND "
                  ++ quote_identifier f ++ " <> ''")
              else Option.none
          | _ => Option.none)
        if data_avail_conditions.isEmpty then []
        else ["(" ++ String.intercalate (" " ++ operator ++ " ") data_avail_conditions ++ ")"]
  | _ => []

/-- The searchable-column subset: catalog columns not classified
non-searchable. -/
def text_columns (column_names : List String) : List String :=
  column_names.filter (fun col => !is_non_searchable_column col)

/-- The body of the search-term loop (identical in both files).  The term
is escaped, then a leading `-` selects exclusion: an excluded term
compiles to an AND-conjunction of `NOT ILIKE` over all searchable
columns (skipped if nothing remains after the dash), an included term to
a parenthesized OR-disjunction of `ILIKE`. -/
def term_condition (text_cols : List String) (term : String) : Option String :=
  let clean_term := escQ term
  if pyStartsWith clean_term "-" then
    let clean_term := pyDrop clean_term 1
    if clean_term.data.isEmpty then Option.none
    else
      Option.some (String.intercalate " AND "
        (text_cols.map (fun col => quote_identifier col ++ " NOT ILIKE '%" ++ clean_term ++ "%'")))
  else
    Option.some ("(" ++ String.intercalate " OR "
      (text_cols.map (fun col => quote_identifier col ++ " ILIKE '%" ++ clean_term ++ "%'")) ++ ")")

/-- `[term.strip() for term in keywords.split(",") if term.strip()]`. -/
def parse_terms (keywords : String) : List String :=
  ((pySplit ',' keywords).map pyStrip).filter (fun t => !t.data.isEmpty)

namespace SF

/-! ## `src/docs/snowflake.py` — `QueryBuilder.build_filter_clause`

The snowflake.py variant prepends eleven special-cased handlers (lines
467-516) to the generic stages.  Each handler is one definition below, in
source order. -/

/-- `contract_type` (list) compiles to `"TYPE" IN (...)` — the column
`TYPE` is hardcoded, not checked against the catalog. -/
def contract_type_conds (filters : Filters) : List String :=
  match fget filters "contract_type" with
  | Option.some (PyVal.list vs) =>
      let type_list := "'" ++ String.intercalate "','" (vs.map (fun v => escQ (pyStr v))) ++ "'"
      ["\"TYPE\" IN (" ++ type_list ++ ")"]
  | _ => []

/-- `has_execution_data is True/False` compiles to a hardcoded
`AWARD_ID_PIID` condition. -/
def has_execution_data_conds (filters : Filters) : List String :=
  match fget filters "has_execution_data" with
  | Option.some (PyVal.bool true) =>
      ["(\"AWARD_ID_PIID\" IS NOT NULL AND \"AWARD_ID_PIID\" <> '')"]
  | Option.some (PyVal.bool false) =>
      ["(\"AWARD_ID_PIID\" IS NULL OR \"AWARD_ID_PIID\" = '')"]
  | _ => []

/-- `min_award_amount`/`max_award_amount` (`is not None`) compile to raw
bounds on the hardcoded `AWARD$` column. -/
def award_amount_conds (filters : Filters) : List String :=
  (match fget filters "min_award_amount" with
   | Option.some PyVal.none => []
   | Option.some v => ["\"AWARD$\" >= " ++ pyStr v]
   | Option.none => [])
  ++
  (match fget filters "max_award_amount" with
   | Option.some PyVal.none => []
   | Option.some v => ["\"AWARD$\" <= " ++ pyStr v]
   | Option.none => [])

/-- Truthy `agency` compiles to an `ILIKE` on the hardcoded
`Department/Ind.Agency` column. -/
def agency_conds (filters : Filters) : List String :=
  match fget filters "agency" with
  | Option.some v =>
      if pyTruthy v then
        let agency_value := escQ (pyStr v)
        ["\"Department/Ind.Agency\" ILIKE '%" ++ agency_value ++ "%'"]
      else []
  | Option.none => []

/-- Truthy `naics_code`: numeric values match `NAICSCODE` exactly or
`NAICS_CODE` by pattern; other values only `NAICS_CODE` by pattern. -/
def naics_code_conds (filters : Filters) : List String :=
  match fget filters "naics_code" with
  | Option.some v =>
      if pyTruthy v then
        let naics_value := escQ (pyStr v)
        if pyIsDigit naics_value then
          ["(\"NAICSCODE\" = " ++ naics_value ++ " OR \"NAICS_CODE\" ILIKE '%" ++ naics_value ++ "%')"]
        else
          ["\"NAICS_CODE\" ILIKE '%" ++ naics_value ++ "%'"]
      else []
  | Option.none => []

/-- Truthy `awardee` compiles to an `ILIKE` on the hardcoded `AWARDEE`
column. -/
def awardee_conds (filters : Filters) : List String :=
  match fget filters "awardee" with
  | Option.some v =>
      if pyTruthy v then
        let awardee_value := escQ (pyStr v)
        ["\"AWARDEE\" ILIKE '%" ++ awardee_value ++ "%'"]
      else []
  | Option.none => []

/-- Truthy `psc_code` compiles to an `ILIKE` on the hardcoded
`PRODUCT_OR_SERVICE_CODE` column. -/
def psc_code_conds (filters : Filters) : List String :=
  match fget filters "psc_code" with
  | Option.some v =>
      if pyTruthy v then
        let psc_value := escQ (pyStr v)
        ["\"PRODUCT_OR_SERVICE_CODE\" ILIKE '%" ++ psc_value ++ "%'"]
      else []
  | Option.none => []

/-- Truthy `award_id` searches the hardcoded `AWARDNUMBER` and
`AWARD_ID_PIID` columns. -/
def award_id_conds (filters : Filters) : List String :=
  match fget filters "award_id" with
  | Option.some v =>
      if pyTruthy v then
        let award_id_value := escQ (pyStr v)
        ["(\"AWARDNUMBER\" ILIKE '%" ++ award_id_value ++ "%' OR \"AWARD_ID_PIID\" ILIKE '%" ++ award_id_value ++ "%')"]
      else []
  | Option.none => []

/-- Truthy `award_date_start`/`award_date_end` compile to bounds on the
hardcoded `AWARDDATE` column; the value is interpolated into the quotes
raw, WITHOUT escaping (`f"... >= '{filters[...]}'"`). -/
def award_date_conds (filters : Filters) : List String :=
  (match fget filters "award_date_start" with
   | Option.some v =>
       if pyTruthy v then ["\"AWARDDATE\" >= '" ++ pyStr v ++ "'"] else []
   | Option.none => [])
  ++
  (match fget filters "award_date_end" with
   | Option.some v =>
       if pyTruthy v then ["\"AWARDDATE\" <= '" ++ pyStr v ++ "'"] else []
   | Option.none => [])

/-- The keys consumed by the special handlers, excluded from the generic
list-filter loop (snowflake.py lines 528-540). -/
def excluded_keys : List String :=
  ["contract_type", "has_execution_data", "min_award_amount", "max_award_amount",
   "agency", "naics_code", "awardee", "award_date_start", "award_date_end",
   "psc_code", "award_id"]

/-- The generic list-filter loop of snowflake.py: every non-special key
holding a non-empty list and passing `column_exists` compiles to
`col IN ('v1','v2',...)` with each value quoted and escaped. -/
def list_conds (filters : Filters) (column_names : Option (List String)) : List String :=
  filters.flatMap (fun kv =>
    let key := kv.1
    match fget filters key with
    | Option.some (PyVal.list vs) =>
        if !(excluded_keys.contains key) && !vs.isEmpty && column_exists column_names key then
          let value_list := "'" ++ String.intercalate "','" (vs.map (fun v => escQ (pyStr v))) ++ "'"
          [quote_identifier key ++ " IN (" ++ value_list ++ ")"]
        else []
    | _ => [])

/-- One `exact_values` entry of snowflake.py carrying an explicit
operator.  Note: snowflake.py dispatches only on the six comparison
operators and `CONTAINS`/`STARTS_WITH`/`ENDS_WITH`; there is no
`IS_NULL`/`IS_NOT_NULL` branch, such a spec falls through and contributes
nothing. -/
def exact_op_conds (field : String) (obj : Filters) : List String :=
  let op := pyStr ((fget obj "operator").getD (PyVal.str "="))
  let val := (fget obj "value").getD (PyVal.str "")
  if ["=", "!=", ">", "<", ">=", "<="].contains op then
    if pyIsNum val then [quote_identifier field ++ " " ++ op ++ " " ++ pyStr val]
    else [quote_identifier field ++ " " ++ op ++ " '" ++ escQ (pyStr val) ++ "'"]
  else if op == "CONTAINS" then
    [quote_identifier field ++ " ILIKE '%" ++ escQ (pyStr val) ++ "%'"]
  else if op == "STARTS_WITH" then
    [quote_identifier field ++ " ILIKE '" ++ escQ (pyStr val) ++ "%'"]
  else if op == "ENDS_WITH" then
    [quote_identifier field ++ " ILIKE '%" ++ escQ (pyStr val) ++ "'"]
  else []

/-- One bare-value `exact_values` entry of snowflake.py: numbers raw,
anything else (including lists) stringified, escaped and quoted. -/
def exact_bare_conds (field : String) (val : PyVal) : List String :=
  if pyIsNum val then [quote_identifier field ++ " = " ++ pyStr val]
  else [quote_identifier field ++ " = '" ++ escQ (pyStr val) ++ "'"]

/-- The `exact_values` block of snowflake.py: guarded by a truthy dict;
entries on columns failing `column_exists` are dropped. -/
def exact_value_conds (filters : Filters) (column_names : Option (List String)) : List String :=
  match fget filters "exact_values" with
  | Option.some (PyVal.dict entries) =>
      if entries.isEmpty then []
      else
        entries.flatMap (fun fv =>
          let field := fv.1
          let filter_obj := fv.2
          if column_exists column_names field then
            match filter_obj with
            | PyVal.dict obj =>
                if (fget obj "operator").isSome then exact_op_conds field obj
                else exact_bare_conds field filter_obj
            | _ => exact_bare_conds field filter_obj
          else [])
  | _ => []

/-- `QueryBuilder.build_filter_clause` of snowflake.py: the eleven
special handlers, then the generic Min/Max, list, dataAvailability and
exact_values stages; all conditions joined by the request operator
(default `AND`). -/
def build_filter_clause (filters : Filters) (column_names : Option (List String)) : String :=
  if filters.isEmpty then ""
  else
    let operator := pyStr ((fget filters "operator").getD (PyVal.str "AND"))
    let conditions :=
      contract_type_conds filters
      ++ has_execution_data_conds filters
      ++ award_amount_conds filters
      ++ agency_conds filters
      ++ naics_code_conds filters
      ++ awardee_conds filters
      ++ psc_code_conds filters
      ++ award_id_conds filters
      ++ award_date_conds filters
      ++ min_max_conds filters column_names
      ++ list_conds filters column_names
      ++ data_availability_conds filters column_names operator
      ++ exact_value_conds filters column_names
    if conditions.isEmpty then ""
    else String.intercalate (" " ++ operator ++ " ") conditions

/-- `QueryBuilder.build_search_clause` of snowflake.py: empty keywords,
a falsy catalog or no searchable columns give the empty clause; the
per-term clauses are joined with `AND`. -/
def build_search_clause (keywords : String) (column_names : Option (List String)) : String :=
  if keywords.data.isEmpty || (pyStrip keywords).data.isEmpty then ""
  else
    let search_terms := parse_terms keywords
    if search_terms.isEmpty then ""
    else
      match column_names with
      | Option.none => ""
      | Option.some cols =>
          if cols.isEmpty then ""
          else
            let text_cols := text_columns cols
            if text_cols.isEmpty then ""
            else
              let all_conditions := search_terms.filterMap (term_condition text_cols)
              if all_conditions.isEmpty then ""
              else String.intercalate " AND " all_conditions

end SF

namespace LF

/-! ## `src/docs/lambda_function.py` — `QueryBuilder`

The lambda_function.py variant has no special-cased keys; its generic
list loop has no excluded-key set, and its `exact_values` block also
handles `IS_NULL`/`IS_NOT_NULL` and bare list values. -/

/-- The generic list-filter loop of lambda_function.py (no excluded
keys). -/
def list_conds (filters : Filters) (column_names : Option (List String)) : List String :=
  filters.flatMap (fun kv =>
    let key := kv.1
    match fget filters key with
    | Option.some (PyVal.list vs) =>
        if !vs.isEmpty && column_exists column_names key then
          let value_list := "'" ++ String.intercalate "','" (vs.map (fun v => escQ (pyStr v))) ++ "'"
          [quote_identifier key ++ " IN (" ++ value_list ++ ")"]
        else []
    | _ => [])

/-- One `exact_values` entry of lambda_function.py carrying an explicit
operator; unlike snowflake.py this dispatch includes `IS_NULL` and
`IS_NOT_NULL`, which take no value. -/
def exact_op_conds (field : String) (obj : Filters) : List String :=
  let op := pyStr ((fget obj "operator").getD (PyVal.str "="))
  let val := (fget obj "value").getD (PyVal.str "")
  if ["=", "!=", ">", "<", ">=", "<="].contains op then
    if pyIsNum val then [quote_identifier field ++ " " ++ op ++ " " ++ pyStr val]
    else [quote_identifier field ++ " " ++ op ++ " '" ++ escQ (pyStr val) ++ "'"]
  else if op == "CONTAINS" then
    [quote_identifier field ++ " ILIKE '%" ++ escQ (pyStr val) ++ "%'"]
  else if op == "STARTS_WITH" then
    [quote_identifier field ++ " ILIKE '" ++ escQ (pyStr val) ++ "%'"]
  else if op == "ENDS_WITH" then
    [quote_identifier field ++ " ILIKE '%" ++ escQ (pyStr val) ++ "'"]
  else if op == "IS_NULL" then
    [quote_identifier field ++ " IS NULL"]
  else if op == "IS_NOT_NULL" then
    [quote_identifier field ++ " IS NOT NULL"]
  else []

/-- One bare-value `exact_values` entry of lambda_function.py: a
non-empty list compiles to `IN (...)`, numbers raw, anything else
escaped and quoted. -/
def exact_bare_conds (field : String) (val : PyVal) : List String :=
  match val with
  | PyVal.list vs =>
      if vs.isEmpty then []
      else
        let values_list := "'" ++ String.intercalate "','" (vs.map (fun v => escQ (pyStr v))) ++ "'"
        [quote_identifier field ++ " IN (" ++ values_list ++ ")"]
  | _ =>
      if pyIsNum val then [quote_identifier field ++ " = " ++ pyStr val]
      else [quote_identifier field ++ " = '" ++ escQ (pyStr val) ++ "'"]

/-- The `exact_values` block of lambda_function.py. -/
def exact_value_conds (filters : Filters) (column_names : Option (List String)) : List String :=
  match fget filters "exact_values" with
  | Option.some (PyVal.dict entries) =>
      if entries.isEmpty then []
      else
        entries.flatMap (fun fv =>
          let field := fv.1
          let filter_obj := fv.2
          if column_exists column_names field then
            match filter_obj with
            | PyVal.dict obj =>
                if (fget obj "operator").isSome then exact_op_conds field obj
                else exact_bare_conds field filter_obj
            | _ => exact_bare_conds field filter_obj
          else [])
  | _ => []

/-- `QueryBuilder.build_filter_clause` of lambda_function.py: the generic
Min/Max, list, dataAvailability and exact_values stages joined by the
request operator. -/
def build_filter_clause (filters : Filters) (column_names : Option (List String)) : String :=
  if filters.isEmpty then ""
  else
    let operator := pyStr ((fget filters "operator").getD (PyVal.str "AND"))
    let conditions :=
      min_max_conds filters column_names
      ++ list_conds filters column_names
      ++ data_availability_conds filters column_names operator
      ++ exact_value_conds filters column_names
    if conditions.isEmpty then ""
    else String.intercalate (" " ++ operator ++ " ") conditions

/-- `QueryBuilder.build_search_clause` of lambda_function.py: with a
falsy catalog it falls back to `CONTAINS_TEXT('*', ...)` conditions
joined by `OR`; otherwise as in snowflake.py. -/
def build_search_clause (keywords : String) (column_names : Option (List String)) : String :=
  if keywords.data.isEmpty || (pyStrip keywords).data.isEmpty then ""
  else
    let search_terms := parse_terms keywords
    if search_terms.isEmpty then ""
    else
      let fallback := String.intercalate " OR "
        (search_terms.map (fun term => "CONTAINS_TEXT('*', '" ++ escQ term ++ "')"))
      match column_names with
      | Option.none => fallback
      | Option.some cols =>
          if cols.isEmpty then fallback
          else
            let text_cols := text_columns cols
            if text_cols.isEmpty then ""
            else
              let all_conditions := search_terms.filterMap (term_condition text_cols)
              if all_conditions.isEmpty then ""
              else String.intercalate " AND " all_conditions

end LF

/-! ## `SnowflakeConnectionPool` (snowflake.py only)

### Connection validation

`_is_connection_valid` is a function of the connection's identity and
bookkeeping state: `conn_id` is Python's `id(connection)`, `tracked`
whether `conn_id ∈ _connection_times`, `age` the elapsed seconds since
creation, `closed` the connector's closed flag. -/

/-- The observable state of one pooled connection at validation time. -/
structure ConnInfo where
  conn_id : Nat
  age : Nat
  tracked : Bool
  closed : Bool

/-- `SnowflakeConnectionPool._is_connection_valid` (snowflake.py lines
106-133).  Returns `(valid, ran_probe)`: `ran_probe` records whether the
expensive `SELECT 1` round trip was executed.  `probe_ok` is whether that
query would succeed (a failure raises, is caught, and yields `False`).
The age check runs first, then the closed-flag check; the `SELECT 1`
probe runs only when `id(connection) % 10 == 0` — a deterministic
property of the connection's identity, not a per-validation sample. -/
def is_connection_valid (max_idle_time : Nat) (probe_ok : Bool) (c : ConnInfo) : Bool × Bool :=
  if c.tracked && decide (c.age > max_idle_time) then (false, false)
  else if c.closed then (false, false)
  else if c.conn_id % 10 == 0 then (probe_ok, true)
  else (true, false)

/-! ### Pool state machine

`get_connection` (snowflake.py lines 135-210) acquires and releases
connections.  The abstract state tracks the three counters the code
maintains: `idle` is `_pool.qsize()`, `active` is `_active_connections`,
`borrowed` the number of connections yielded to callers and not yet
returned.  Each step below is one atomic code path; the mutex makes the
`active < max` check-and-increment atomic, and queue operations are
individually atomic, so every real interleaving is a sequence of these
steps. -/

/-- Pool counters: `idle` = `_pool.qsize()`, `active` =
`_active_connections`, `borrowed` = connections currently lent out. -/
structure PoolState where
  idle : Nat
  active : Nat
  borrowed : Nat
deriving DecidableEq

/-- One atomic step of `get_connection` / its `finally` block.

* `acquireIdleValid`: `_pool.get_nowait()` succeeds and the connection
  validates; it is yielded.
* `acquireIdleInvalid`: `_pool.get_nowait()` succeeds but validation
  fails; the connection is closed.  `_active_connections` is NOT
  decremented on this path (the caller then proceeds to create or wait).
* `createUnderLock`: under the lock, `_active_connections <
  max_connections`, so a fresh connection is created, the counter
  incremented, and the connection yielded.
* `waitGetValid` / `waitGetInvalidReplace`: the saturated branch waits on
  the queue; an arriving connection is yielded, an invalid arrival is
  closed and replaced via `_create_connection()` without touching the
  counter.  (A timeout raises and changes nothing.)
* `releaseValid`: the `finally` block revalidates and
  `put_nowait`s the connection back.
* `releaseValidQueueFull`: `put_nowait` raises `Full`; the exception is
  swallowed and the connection is dropped without bookkeeping.
* `releaseInvalid`: the `finally` block closes an invalid connection and
  decrements `_active_connections` under the lock. -/
inductive PoolStep (max_connections : Nat) : PoolState → PoolState → Prop where
  | acquireIdleValid (i a b : Nat) :
      PoolStep max_connections ⟨i + 1, a, b⟩ ⟨i, a, b + 1⟩
  | acquireIdleInvalid (i a b : Nat) :
      PoolStep max_connections ⟨i + 1, a, b⟩ ⟨i, a, b⟩
  | createUnderLock (i a b : Nat) (h : a < max_connections) :
      PoolStep max_connections ⟨i, a, b⟩ ⟨i, a + 1, b + 1⟩
  | waitGetValid (i a b : Nat) :
      PoolStep max_connections ⟨i + 1, a, b⟩ ⟨i, a, b + 1⟩
  | waitGetInvalidReplace (i a b : Nat) :
      PoolStep max_connections ⟨i + 1, a, b⟩ ⟨i, a, b + 1⟩
  | releaseValid (i a b : Nat) (h : i < max_connections) :
      PoolStep max_connections ⟨i, a, b + 1⟩ ⟨i + 1, a, b⟩
  | releaseValidQueueFull (i a b : Nat) (h : max_connections ≤ i) :
      PoolStep max_connections ⟨i, a, b + 1⟩ ⟨i, a, b⟩
  | releaseInvalid (i a b : Nat) :
      PoolStep max_connections ⟨i, a + 1, b + 1⟩ ⟨i, a, b⟩

/-- Pool states reachable from the freshly initialized pool
(`Queue` empty, `_active_connections = 0`, nothing lent out) under any
interleaving of acquire/release steps. -/
inductive PoolReach (max_connections : Nat) : PoolState → Prop where
  | init : PoolReach max_connections ⟨0, 0, 0⟩
  | step {s t : PoolState} : PoolReach max_connections s →
      PoolStep max_connections s t → PoolReach max_connections t

/-! ## `SnowflakeService` / lambda handler service (`get_opportunities`)

The warehouse is abstracted as an oracle `db` mapping a query string to
either an error message (the query raised) or the result rows of
`execute_query`. -/

/-- The warehouse oracle: `execute_query` as a function of the query
text. -/
abbrev DB := String → Except String (List Row)

/-- `row["COLUMN_NAME"]`-style access.  The metadata query always yields
a string in this column; other shapes are out of the claims' reach and
read as `""`. -/
def rowStr (row : Row) (key : String) : String :=
  match fget row key with
  | Option.some (PyVal.str s) => s
  | _ => ""

namespace SF

/-- The table configuration of `SnowflakeService.get_opportunities` in
snowflake.py: `database` and `schema` from the service config,
`table_name` from `SNOWFLAKE_OPPORTUNITIES_TABLE`. -/
structure Config where
  database : String
  schema_name : String
  table_name : String

/-- The INFORMATION_SCHEMA metadata query of snowflake.py's
`get_opportunities` (whitespace of the triple-quoted f-string
normalized; the oracle is only ever applied to this exact term). -/
def columns_query (cfg : Config) : String :=
  "SELECT COLUMN_NAME, DATA_TYPE FROM " ++ cfg.database
  ++ ".INFORMATION_SCHEMA.COLUMNS WHERE TABLE_NAME = '" ++ cfg.table_name
  ++ "' AND TABLE_SCHEMA = '" ++ cfg.schema_name ++ "' ORDER BY ORDINAL_POSITION"

/-- `SnowflakeService.get_opportunities` of snowflake.py (lines
371-433).  The surrounding `try/except` logs and RE-RAISES, so every
`execute_query` failure propagates as an error; only the
no-columns-returned case yields the empty result with a diagnostic
message. -/
def get_opportunities (db : DB) (cfg : Config) (filters : Filters)
    (page page_size : Int) (search_keywords : String) : Except String PyVal :=
  let opportunities_table := cfg.database ++ "." ++ cfg.schema_name ++ "." ++ cfg.table_name
  match db (columns_query cfg) with
  | Except.error e => Except.error e
  | Except.ok columns =>
    let column_names := columns.map (fun col => rowStr col "COLUMN_NAME")
    if column_names.isEmpty then
      Except.ok (PyVal.dict [("data", PyVal.list []), ("total_count", PyVal.int 0),
        ("message", PyVal.str "No columns found in opportunities table")])
    else
      let order_column := column_names.headD "ID"
      let filter_clause := build_filter_clause filters (Option.some column_names)
      let search_clause := build_search_clause search_keywords (Option.some column_names)
      let where_conditions :=
        (if !filter_clause.data.isEmpty then ["(" ++ filter_clause ++ ")"] else [])
        ++ (if !search_clause.data.isEmpty then ["(" ++ search_clause ++ ")"] else [])
      let where_clause :=
        if where_conditions.isEmpty then ""
        else "WHERE " ++ String.intercalate " AND " where_conditions
      let count_query := "SELECT COUNT(*) as total_count FROM " ++ opportunities_table
        ++ " " ++ where_clause
      match db count_query with
      | Except.error e => Except.error e
      | Except.ok count_result =>
        let total_count := match count_result with
          | [] => PyVal.int 0
          | r :: _ => (fget r "TOTAL_COUNT").getD PyVal.none
        let offset := (page - 1) * page_size
        let data_query := "SELECT * FROM " ++ opportunities_table ++ " " ++ where_clause
          ++ " ORDER BY " ++ quote_identifier order_column
          ++ " LIMIT " ++ toString page_size ++ " OFFSET " ++ toString offset
        match db data_query with
        | Except.error e => Except.error e
        | Except.ok opportunities_data =>
          Except.ok (PyVal.dict [("data", PyVal.list (opportunities_data.map PyVal.dict)),
            ("total_count", total_count),
            ("page", PyVal.int page), ("page_size", PyVal.int page_size)])

end SF

namespace LF

/-- The table configuration of the lambda service's `get_opportunities`. -/
structure Config where
  database : String
  opportunities_schema : String
  opportunities_table : String

/-- The metadata query of lambda_function.py's `get_opportunities`
(whitespace normalized as above). -/
def columns_query (cfg : Config) : String :=
  "SELECT COLUMN_NAME, DATA_TYPE FROM " ++ cfg.database
  ++ ".INFORMATION_SCHEMA.COLUMNS WHERE TABLE_NAME = '" ++ cfg.opportunities_table
  ++ "' AND TABLE_SCHEMA = '" ++ cfg.opportunities_schema ++ "' ORDER BY ORDINAL_POSITION"

/-- The body of lambda_function.py's `get_opportunities` `try` block
(lines 357-403); an error anywhere in it reaches the `except` handler. -/
def get_opportunities_try (db : DB) (cfg : Config) (filters : Filters)
    (page page_size : Int) (search_keywords : String) : Except String PyVal :=
  let opportunities_table := cfg.database ++ "." ++ cfg.opportunities_schema
    ++ "." ++ cfg.opportunities_table
  match db (columns_query cfg) with
  | Except.error e => Except.error e
  | Except.ok columns =>
    let column_names := columns.map (fun col => rowStr col "COLUMN_NAME")
    if column_names.isEmpty then
      Except.ok (PyVal.dict [("data", PyVal.list []), ("total_count", PyVal.int 0),
        ("message", PyVal.str "No columns found in opportunities table")])
    else
      let order_column := column_names.headD "ID"
      let filter_clause := build_filter_clause filters (Option.some column_names)
      let search_clause := build_search_clause search_keywords (Option.some column_names)
      let where_clause :=
        if !filter_clause.data.isEmpty && !search_clause.data.isEmpty then
          "WHERE (" ++ filter_clause ++ ") AND (" ++ search_clause ++ ")"
        else if !filter_clause.data.isEmpty then "WHERE " ++ filter_clause
        else if !search_clause.data.isEmpty then "WHERE " ++ search_clause
        else ""
      let count_query := "SELECT COUNT(*) as total_count FROM " ++ opportunities_table
        ++ " " ++ where_clause
      match db count_query with
      | Except.error e => Except.error e
      | Except.ok count_result =>
        let total_count := match count_result with
          | [] => PyVal.int 0
          | r :: _ => (fget r "TOTAL_COUNT").getD PyVal.none
        let offset := (page - 1) * page_size
        let data_query := "SELECT * FROM " ++ opportunities_table ++ " " ++ where_clause
          ++ " ORDER BY " ++ quote_identifier order_column
          ++ " LIMIT " ++ toString page_size ++ " OFFSET " ++ toString offset
        match db data_query with
        | Except.error e => Except.error e
        | Except.ok opportunities_data =>
          Except.ok (PyVal.dict [("data", PyVal.list (opportunities_data.map PyVal.dict)),
            ("total_count", total_count),
            ("page", PyVal.int page), ("page_size", PyVal.int page_size)])

/-- `get_opportunities` of lambda_function.py (lines 349-406): the whole
body is wrapped in `try/except`, and ANY exception — schema resolution
included — is converted to an empty result with a diagnostic message. -/
def get_opportunities (db : DB) (cfg : Config) (filters : Filters)
    (page page_size : Int) (search_keywords : String) : PyVal :=
  match get_opportunities_try db cfg filters page page_size search_keywords with
  | Except.ok v => v
  | Except.error e =>
      PyVal.dict [("data", PyVal.list []), ("total_count", PyVal.int 0),
        ("message", PyVal.str ("Error accessing opportunities table: " ++ e))]

end LF

/-! ## Helper lemmas -/

/-- Strings with equal character data are equal. -/
theorem strext {a b : String} (h : a.data = b.data) : a = b := by
  cases a; cases b; exact congrArg String.mk h

/-- Prepending a non-quote character preserves the quote-doubling
discipline. -/
theorem quotesDoubled_cons_ne (c : Char) (l : List Char) (h : ¬ c = '\'') :
    quotesDoubled (c :: l) = quotesDoubled l := by
  cases l with
  | nil => simp [quotesDoubled, h]
  | cons c2 l2 => simp [quotesDoubled, h]

/-- Prepending a doubled quote preserves the quote-doubling discipline. -/
theorem quotesDoubled_cons_quote (l : List Char) :
    quotesDoubled ('\'' :: '\'' :: l) = quotesDoubled l := by
  simp [quotesDoubled]

/-- The quote-doubling escape always yields a character list in which
every single quote is doubled. -/
theorem quotesDoubled_escQ_data (l : List Char) :
    quotesDoubled (l.flatMap (fun c => if c == '\'' then ['\'', '\''] else [c])) = true := by
  induction l with
  | nil => rfl
  | cons c rest ih =>
      by_cases h : c = '\''
      · subst h; simpa [quotesDoubled_cons_quote] using ih
      · simpa [h, quotesDoubled_cons_ne c _ h] using ih

/-- A `column_exists` success against a non-empty catalog is catalog
membership (membership alone already forces the catalog non-empty). -/
theorem mem_of_column_exists {cat : List String} {c : String}
    (hne : cat ≠ []) (h : column_exists (Option.some cat) c = true) : c ∈ cat := by
  cases cat with
  | nil => exact absurd rfl hne
  | cons a l =>
      simp only [column_exists, List.isEmpty_cons, Bool.false_or] at h
      simpa using h

/-- The pool counters' inductive invariant: every idle or borrowed
connection is accounted for in `_active_connections`, and the counter
never passes `max_connections`. -/
theorem poolStep_inv {m : Nat} {s t : PoolState}
    (hinv : s.idle + s.borrowed ≤ s.active ∧ s.active ≤ m)
    (hstep : PoolStep m s t) :
    t.idle + t.borrowed ≤ t.active ∧ t.active ≤ m := by
  cases hstep <;> simp_all <;> omega

/-- The invariant holds in every reachable pool state. -/
theorem poolReach_inv {m : Nat} {s : PoolState} (h : PoolReach m s) :
    s.idle + s.borrowed ≤ s.active ∧ s.active ≤ m := by
  induction h with
  | init => simp
  | step _ hstep ih => exact poolStep_inv ih hstep

/-! ## C3 -/

/-- C3: in every pool state reachable under any sequence of acquire
(`get_connection` entry) and release (`get_connection` exit) steps, the
number of connections concurrently borrowed from the pool never exceeds
`max_connections`. -/
theorem pool_borrowed_never_exceeds_max (max_connections : Nat) (s : PoolState)
    (h : PoolReach max_connections s) : s.borrowed ≤ max_connections := by
  have hinv := poolReach_inv h
  omega

/-- Witness for C3: after one create step from the initial pool the bound
holds concretely. -/
theorem pool_borrowed_never_exceeds_max_witness :
    PoolReach 5 ⟨0, 1, 1⟩ ∧ (PoolState.mk 0 1 1).borrowed ≤ 5 := by
  have hr : PoolReach 5 ⟨0, 1, 1⟩ :=
    PoolReach.step PoolReach.init (PoolStep.createUnderLock 0 0 0 (by omega))
  exact ⟨hr, pool_borrowed_never_exceeds_max 5 _ hr⟩

/-! ## C6 -/

/-- C6 (code bug): a reachable trace — create, release, the idle
connection goes invalid and is closed during the next acquire
(`_active_connections` is NOT decremented on that path), create again,
release — ends in the state `idle = 1, active = 2, borrowed = 0`, where
`idle_count + outstanding ≠ total_created`: the acquire/release pair has
broken the invariant the spec asserts. -/
theorem pool_accounting_broken_by_invalid_idle_acquire :
    PoolReach 2 ⟨1, 2, 0⟩ ∧
      ¬ ((PoolState.mk 1 2 0).idle + (PoolState.mk 1 2 0).borrowed
          = (PoolState.mk 1 2 0).active) := by
  refine ⟨?_, by decide⟩
  have h1 : PoolReach 2 ⟨0, 1, 1⟩ :=
    PoolReach.step PoolReach.init (PoolStep.createUnderLock 0 0 0 (by omega))
  have h2 : PoolReach 2 ⟨1, 1, 0⟩ :=
    PoolReach.step h1 (PoolStep.releaseValid 0 1 0 (by omega))
  have h3 : PoolReach 2 ⟨0, 1, 0⟩ :=
    PoolReach.step h2 (PoolStep.acquireIdleInvalid 0 1 0)
  have h4 : PoolReach 2 ⟨0, 2, 1⟩ :=
    PoolReach.step h3 (PoolStep.createUnderLock 0 1 0 (by omega))
  exact PoolReach.step h4 (PoolStep.releaseValid 0 2 0 (by omega))

/-! ## C4 -/

/-- C4 counterexample: the `SELECT 1` probe is keyed on
`id(connection) % 10 == 0`, a fixed property of the connection, not a
per-validation sample.  A connection with `id = 20` (cheap checks
passing) gets the probe on every one of ten successive validations — not
on one in ten — while a connection with `id = 21` never gets it. -/
theorem validation_probe_not_one_in_ten :
    ((List.range 10).all
      (fun _ => (is_connection_valid 300 true ⟨20, 5, true, false⟩).2)) = true
    ∧ (is_connection_valid 300 true ⟨21, 5, true, false⟩).2 = false := by
  constructor
  · decide
  · decide

/-- C4 amended: `_is_connection_valid` runs the cheap checks (age versus
`max_idle_time`, then the closed flag) on every call, and runs the
expensive `SELECT 1` probe exactly when both cheap checks pass and
`id(connection) % 10 == 0` — a deterministic one-in-ten-identities
criterion, the same outcome on every validation of a given connection. -/
theorem validation_probe_iff_conn_id_mod_ten (max_idle_time : Nat) (probe_ok : Bool)
    (c : ConnInfo) :
    (is_connection_valid max_idle_time probe_ok c).2 =
      (!(c.tracked && decide (c.age > max_idle_time)) && !c.closed
        && (c.conn_id % 10 == 0)) := by
  rcases c with ⟨cid, age, tr, cl⟩
  by_cases h1 : (tr && decide (age > max_idle_time)) = true
  · simp [is_connection_valid, h1]
  · by_cases h2 : cl = true
    · simp [is_connection_valid, h1, h2]
    · by_cases h3 : (cid % 10 == 0) = true
      · simp [is_connection_valid, h1, h2, h3]
      · simp [is_connection_valid, h1, h2, h3]

/-! ## C10 -/

/-- C10: with `column_names` equal to `None` or the empty list, the inner
`column_exists` returns `True` for every key, so the allow-list is
disabled: a `Min` filter on a column of no catalog still compiles to a
condition. -/
theorem column_allowlist_disabled_when_catalog_falsy :
    (∀ k : String, column_exists Option.none k = true)
    ∧ (∀ k : String, column_exists (Option.some []) k = true)
    ∧ SF.build_filter_clause [("XMin", PyVal.int 5)] Option.none = "\"X\" >= 5"
    ∧ SF.build_filter_clause [("XMin", PyVal.int 5)] (Option.some []) = "\"X\" >= 5"
    ∧ LF.build_filter_clause [("XMin", PyVal.int 5)] Option.none = "\"X\" >= 5"
    ∧ LF.build_filter_clause [("XMin", PyVal.int 5)] (Option.some []) = "\"X\" >= 5" := by
  refine ⟨fun k => rfl, fun k => rfl, ?_, ?_, ?_, ?_⟩ <;> decide

/-! ## C9 -/

/-- C9: compiling the search string `"drone,-classified"` over the
catalog `{"TITLE","ID"}` (ID excluded as non-searchable) yields
`("TITLE" ILIKE '%drone%') AND "TITLE" NOT ILIKE '%classified%'`;
in general, per-term clauses are joined with `AND`, an included term is
a parenthesized OR-disjunction of `ILIKE` over the searchable columns,
and an excluded term is an AND-conjunction of `NOT ILIKE` over all
searchable columns. -/
theorem search_clause_structure :
    SF.build_search_clause "drone,-classified" (Option.some ["TITLE", "ID"])
      = "(\"TITLE\" ILIKE '%drone%') AND \"TITLE\" NOT ILIKE '%classified%'"
    ∧ (∀ (cols : List String) (t : String), pyStartsWith (escQ t) "-" = false →
        term_condition cols t = Option.some ("(" ++ String.intercalate " OR "
          (cols.map (fun col => quote_identifier col ++ " ILIKE '%" ++ escQ t ++ "%'")) ++ ")"))
    ∧ (∀ (cols : List String) (t : String), pyStartsWith (escQ t) "-" = true →
        (pyDrop (escQ t) 1).data.isEmpty = false →
        term_condition cols t = Option.some (String.intercalate " AND "
          (cols.map (fun col => quote_identifier col ++ " NOT ILIKE '%" ++ pyDrop (escQ t) 1 ++ "%'")))) := by
  refine ⟨by decide, ?_, ?_⟩
  · intro cols t h
    simp [term_condition, h]
  · intro cols t h h2
    simp [term_condition, h, h2]

/-- Witness for C9: the general term-clause shapes instantiated at the
spec's own terms. -/
theorem search_clause_structure_witness :
    pyStartsWith (escQ "drone") "-" = false
    ∧ term_condition ["TITLE"] "drone" = Option.some ("(" ++ String.intercalate " OR "
        (["TITLE"].map (fun col => quote_identifier col ++ " ILIKE '%" ++ escQ "drone" ++ "%'")) ++ ")")
    ∧ pyStartsWith (escQ "-classified") "-" = true
    ∧ term_condition ["TITLE"] "-classified" = Option.some (String.intercalate " AND "
        (["TITLE"].map (fun col => quote_identifier col ++ " NOT ILIKE '%" ++ pyDrop (escQ "-classified") 1 ++ "%'"))) := by
  exact ⟨by decide, search_clause_structure.2.1 ["TITLE"] "drone" (by decide), by decide,
    search_clause_structure.2.2 ["TITLE"] "-classified" (by decide) (by decide)⟩

/-! ## C5 -/

/-- C5 counterexample: the snowflake.py query compiler has no
`IS_NULL`/`IS_NOT_NULL` branch; an `exact_values` spec carrying these
operators on a catalog column contributes nothing, so the compiled
clause is empty and contains no `IS NULL` condition. -/
theorem is_null_spec_dropped_by_snowflake_builder :
    SF.build_filter_clause
        [("exact_values", PyVal.dict [("A", PyVal.dict [("operator", PyVal.str "IS_NULL")])])]
        (Option.some ["A"]) = ""
    ∧ SF.build_filter_clause
        [("exact_values", PyVal.dict [("A", PyVal.dict [("operator", PyVal.str "IS_NOT_NULL")])])]
        (Option.some ["A"]) = ""
    ∧ pyIn "IS NULL"
        (SF.build_filter_clause
          [("exact_values", PyVal.dict [("A", PyVal.dict [("operator", PyVal.str "IS_NULL")])])]
          (Option.some ["A"])) = false := by
  refine ⟨by decide, by decide, by decide⟩

/-- `String.intercalate` on a one-element list is that element. -/
theorem intercalate_singleton (s a : String) : String.intercalate s [a] = a := rfl

/-- C5 amended: only lambda_function.py's compiler dispatches on
`IS_NULL`/`IS_NOT_NULL`, emitting `column IS NULL` / `column IS NOT
NULL` and taking no value; snowflake.py's compiler matches these
operators against no branch, so there the spec contributes no condition
at all. -/
theorem is_null_operators_lambda_only (field : String) (cat : List String) (h : field ∈ cat) :
    LF.build_filter_clause
        [("exact_values", PyVal.dict [(field, PyVal.dict [("operator", PyVal.str "IS_NULL")])])]
        (Option.some cat) = quote_identifier field ++ " IS NULL"
    ∧ LF.build_filter_clause
        [("exact_values", PyVal.dict [(field, PyVal.dict [("operator", PyVal.str "IS_NOT_NULL")])])]
        (Option.some cat) = quote_identifier field ++ " IS NOT NULL"
    ∧ SF.build_filter_clause
        [("exact_values", PyVal.dict [(field, PyVal.dict [("operator", PyVal.str "IS_NULL")])])]
        (Option.some cat) = ""
    ∧ SF.build_filter_clause
        [("exact_values", PyVal.dict [(field, PyVal.dict [("operator", PyVal.str "IS_NOT_NULL")])])]
        (Option.some cat) = "" := by
  have hc : cat.contains field = true := List.elem_eq_true_of_mem h
  have hce : column_exists (Option.some cat) field = true := by
    simp [column_exists]
    exact Or.inr h
  have hmin : pyEndsWith "exact_values" "Min" = false := by decide
  have hmax : pyEndsWith "exact_values" "Max" = false := by decide
  refine ⟨?_, ?_, ?_, ?_⟩ <;>
    simp [LF.build_filter_clause, SF.build_filter_clause, LF.exact_value_conds,
      SF.exact_value_conds, LF.exact_op_conds, SF.exact_op_conds, LF.list_conds, SF.list_conds,
      min_max_conds, data_availability_conds, SF.contract_type_conds,
      SF.has_execution_data_conds, SF.award_amount_conds, SF.agency_conds, SF.naics_code_conds,
      SF.awardee_conds, SF.psc_code_conds, SF.award_id_conds, SF.award_date_conds,
      fget, hce, hmin, hmax, pyStr, pyIsNum, intercalate_singleton]

/-- Witness for C5 amended: instantiated at column `A` of catalog
`{"A"}`. -/
theorem is_null_operators_lambda_only_witness :
    ("A" ∈ (["A"] : List String))
    ∧ LF.build_filter_clause
        [("exact_values", PyVal.dict [("A", PyVal.dict [("operator", PyVal.str "IS_NULL")])])]
        (Option.some ["A"]) = quote_identifier "A" ++ " IS NULL" := by
  exact ⟨by decide, (is_null_operators_lambda_only "A" ["A"] (by decide)).1⟩

/-! ## C2 -/

/-- C2 counterexample: the Min/Max range stage interpolates the filter
value raw — `f"... >= {filters[key]}"` — with no escaping and no
quoting, so a value containing a single quote reaches the WHERE clause
with its quote NOT doubled. -/
theorem min_max_value_interpolated_unescaped :
    SF.build_filter_clause [("AMin", PyVal.str "O'Brien")] (Option.some ["A"])
      = "\"A\" >= O'Brien"
    ∧ quotesDoubled
        (SF.build_filter_clause [("AMin", PyVal.str "O'Brien")] (Option.some ["A"])).data
      = false := by
  refine ⟨by decide, by decide⟩

set_option maxHeartbeats 1000000 in
/-- C2 amended: the membership (IN-list) stage and the `exact_values`
stage pass every string value through the single-quote-doubling escape
(whose output always has all quotes doubled) before interpolation, but
the Min/Max range stage interpolates the value raw — unescaped and
unquoted — and the award-date range stage interpolates it into quotes
without escaping. -/
theorem escape_discipline_by_stage :
    (∀ s : String, quotesDoubled (escQ s).data = true)
    ∧ (∀ v : String,
        SF.build_filter_clause [("STATUS", PyVal.list [PyVal.str v])] (Option.some ["STATUS"])
          = "\"STATUS\" IN ('" ++ escQ v ++ "')")
    ∧ (∀ v : String,
        LF.build_filter_clause [("STATUS", PyVal.list [PyVal.str v])] (Option.some ["STATUS"])
          = "\"STATUS\" IN ('" ++ escQ v ++ "')")
    ∧ (∀ v : String,
        SF.build_filter_clause [("exact_values", PyVal.dict [("STATUS", PyVal.str v)])]
          (Option.some ["STATUS"]) = "\"STATUS\" = '" ++ escQ v ++ "'")
    ∧ (∀ v : String,
        SF.build_filter_clause [("AMin", PyVal.str v)] (Option.some ["A"]) = "\"A\" >= " ++ v)
    ∧ (∀ v : String, pyTruthy (PyVal.str v) = true →
        SF.build_filter_clause [("award_date_start", PyVal.str v)] (Option.some ["A"])
          = "\"AWARDDATE\" >= '" ++ v ++ "'") := by
  refine ⟨fun s => quotesDoubled_escQ_data s.data, ?_, ?_, fun v => rfl, fun v => rfl, ?_⟩
  · intro v
    have h1 : SF.build_filter_clause [("STATUS", PyVal.list [PyVal.str v])]
        (Option.some ["STATUS"])
        = "\"STATUS\"" ++ (" IN (" ++ (("'" ++ (escQ v ++ "'")) ++ ")")) := rfl
    rw [h1]
    apply strext
    simp only [String.data_append, List.append_assoc, List.cons_append, List.nil_append]
  · intro v
    have h1 : LF.build_filter_clause [("STATUS", PyVal.list [PyVal.str v])]
        (Option.some ["STATUS"])
        = "\"STATUS\"" ++ (" IN (" ++ (("'" ++ (escQ v ++ "'")) ++ ")")) := rfl
    rw [h1]
    apply strext
    simp only [String.data_append, List.append_assoc, List.cons_append, List.nil_append]
  · intro v h
    have hne : (v.data.isEmpty) = false := by
      simpa [pyTruthy] using h
    have hmin : pyEndsWith "award_date_start" "Min" = false := by decide
    have hmax : pyEndsWith "award_date_start" "Max" = false := by decide
    simp [SF.build_filter_clause, SF.contract_type_conds, SF.has_execution_data_conds,
      SF.award_amount_conds, SF.agency_conds, SF.naics_code_conds, SF.awardee_conds,
      SF.psc_code_conds, SF.award_id_conds, SF.award_date_conds, min_max_conds, SF.list_conds,
      data_availability_conds, SF.exact_value_conds, fget, hne, hmin, hmax, pyTruthy, pyStr,
      intercalate_singleton]

/-- Witness for C2 amended: the award-date conjunct instantiated at a
truthy value. -/
theorem escape_discipline_by_stage_witness :
    pyTruthy (PyVal.str "2024-01-01") = true
    ∧ SF.build_filter_clause [("award_date_start", PyVal.str "2024-01-01")] (Option.some ["A"])
        = "\"AWARDDATE\" >= '" ++ "2024-01-01" ++ "'" := by
  exact ⟨by decide, escape_discipline_by_stage.2.2.2.2.2 "2024-01-01" (by decide)⟩

/-! ## C7 -/

/-- C7 counterexample: `agency` matches none of the five generic stages
and names no catalog column, yet snowflake.py's compiler emits a
fragment for it (on the hardcoded `Department/Ind.Agency` column), so
not every unrecognized key contributes nothing. -/
theorem special_key_contributes_despite_no_stage :
    SF.build_filter_clause [("agency", PyVal.str "x")] (Option.some ["A"])
      = "\"Department/Ind.Agency\" ILIKE '%x%'"
    ∧ SF.build_filter_clause [("agency", PyVal.str "x")] (Option.some ["A"]) ≠ ""
    ∧ ¬ ("Department/Ind.Agency" ∈ (["A"] : List String)) := by
  refine ⟨by decide, by decide, by decide⟩

/-- C7 amended: `build_filter_clause` is a total function (it returns a
string on every input, never an error), and a key that matches none of
the five stages AND is none of snowflake.py's eleven special-cased keys
contributes no fragment: with a scalar value it compiles to the empty
clause in both files, whatever the catalog — in particular
`{"NOTACOLUMN": 5}` over catalog `{"A"}` compiles to the empty clause.
(lambda_function.py has no special-cased keys, so for it the original
claim holds as stated.) -/
theorem unknown_keys_drop_silently (k : String) (n : Int) (cols : Option (List String))
    (hexc : ¬ k ∈ SF.excluded_keys) (hmin : pyEndsWith k "Min" = false)
    (hmax : pyEndsWith k "Max" = false) :
    SF.build_filter_clause [(k, PyVal.int n)] cols = ""
    ∧ LF.build_filter_clause [(k, PyVal.int n)] cols = "" := by
  have hk : ∀ s ∈ SF.excluded_keys, (k == s) = false := by
    intro s hs
    rw [beq_eq_false_iff_ne]
    intro he
    exact hexc (he ▸ hs)
  have h1 := hk "contract_type" (by decide)
  have h2 := hk "has_execution_data" (by decide)
  have h3 := hk "min_award_amount" (by decide)
  have h4 := hk "max_award_amount" (by decide)
  have h5 := hk "agency" (by decide)
  have h6 := hk "naics_code" (by decide)
  have h7 := hk "awardee" (by decide)
  have h8 := hk "psc_code" (by decide)
  have h9 := hk "award_id" (by decide)
  have h10 := hk "award_date_start" (by decide)
  have h11 := hk "award_date_end" (by decide)
  have hda : ∀ op : String, data_availability_conds [(k, PyVal.int n)] cols op = [] := by
    intro op
    by_cases h : (k == "dataAvailability") = true <;>
      simp [data_availability_conds, fget, h]
  have hev : SF.exact_value_conds [(k, PyVal.int n)] cols = [] := by
    by_cases h : (k == "exact_values") = true <;>
      simp [SF.exact_value_conds, fget, h]
  have hevl : LF.exact_value_conds [(k, PyVal.int n)] cols = [] := by
    by_cases h : (k == "exact_values") = true <;>
      simp [LF.exact_value_conds, fget, h]
  constructor
  · simp [SF.build_filter_clause, SF.contract_type_conds, SF.has_execution_data_conds,
      SF.award_amount_conds, SF.agency_conds, SF.naics_code_conds, SF.awardee_conds,
      SF.psc_code_conds, SF.award_id_conds, SF.award_date_conds, min_max_conds, SF.list_conds,
      fget, h1, h2, h3, h4, h5, h6, h7, h8, h9, h10, h11, hmin, hmax, hda, hev]
  · simp [LF.build_filter_clause, min_max_conds, LF.list_conds, fget, hmin, hmax, hda, hevl]

/-- Witness for C7 amended: the spec's own example, `{"NOTACOLUMN": 5}`
over catalog `{"A"}`. -/
theorem unknown_keys_drop_silently_witness :
    (¬ "NOTACOLUMN" ∈ SF.excluded_keys)
    ∧ pyEndsWith "NOTACOLUMN" "Min" = false
    ∧ pyEndsWith "NOTACOLUMN" "Max" = false
    ∧ SF.build_filter_clause [("NOTACOLUMN", PyVal.int 5)] (Option.some ["A"]) = ""
    ∧ LF.build_filter_clause [("NOTACOLUMN", PyVal.int 5)] (Option.some ["A"]) = "" := by
  refine ⟨by decide, by decide, by decide, ?_⟩
  exact unknown_keys_drop_silently "NOTACOLUMN" 5 (Option.some ["A"])
    (by decide) (by decide) (by decide)

/-! ## C8 -/

/-- C8 counterexample: in snowflake.py, a FAILING schema-resolution
query (the metadata query raising) is logged and re-raised by
`get_opportunities` — the caller sees the exception, not an empty
result set. -/
theorem schema_failure_raises_in_snowflake_service :
    SF.get_opportunities (fun _ => Except.error "metadata query failed")
      ⟨"DB", "SCH", "TBL"⟩ [] 1 10 "" = Except.error "metadata query failed" := rfl

/-- C8 amended: when schema resolution RETURNS NO COLUMNS, both
services return `{"data": [], "total_count": 0}` with a diagnostic
message instead of raising; when schema resolution FAILS (the metadata
query raises), lambda_function.py's service still returns the empty
result with a diagnostic, but snowflake.py's service re-raises the
exception. -/
theorem empty_schema_and_failure_responses :
    (∀ (db : DB) (cfg : SF.Config) (filters : Filters) (page page_size : Int) (kw : String),
      db (SF.columns_query cfg) = Except.ok [] →
      SF.get_opportunities db cfg filters page page_size kw
        = Except.ok (PyVal.dict [("data", PyVal.list []), ("total_count", PyVal.int 0),
            ("message", PyVal.str "No columns found in opportunities table")]))
    ∧ (∀ (db : DB) (cfg : SF.Config) (filters : Filters) (page page_size : Int) (kw e : String),
      db (SF.columns_query cfg) = Except.error e →
      SF.get_opportunities db cfg filters page page_size kw = Except.error e)
    ∧ (∀ (db : DB) (cfg : LF.Config) (filters : Filters) (page page_size : Int) (kw : String),
      db (LF.columns_query cfg) = Except.ok [] →
      LF.get_opportunities db cfg filters page page_size kw
        = PyVal.dict [("data", PyVal.list []), ("total_count", PyVal.int 0),
            ("message", PyVal.str "No columns found in opportunities table")])
    ∧ (∀ (db : DB) (cfg : LF.Config) (filters : Filters) (page page_size : Int) (kw e : String),
      db (LF.columns_query cfg) = Except.error e →
      LF.get_opportunities db cfg filters page page_size kw
        = PyVal.dict [("data", PyVal.list []), ("total_count", PyVal.int 0),
            ("message", PyVal.str ("Error accessing opportunities table: " ++ e))]) := by
  refine ⟨?_, ?_, ?_, ?_⟩
  · intro db cfg filters page page_size kw h
    simp [SF.get_opportunities, h]
  · intro db cfg filters page page_size kw e h
    simp [SF.get_opportunities, h]
  · intro db cfg filters page page_size kw h
    simp [LF.get_opportunities, LF.get_opportunities_try, h]
  · intro db cfg filters page page_size kw e h
    simp [LF.get_opportunities, LF.get_opportunities_try, h]

/-- Witness for C8 amended: a warehouse oracle returning no columns and
one raising, at a concrete configuration. -/
theorem empty_schema_and_failure_responses_witness :
    ((fun _ => Except.ok []) : DB) (SF.columns_query ⟨"DB", "SCH", "TBL"⟩) = Except.ok []
    ∧ SF.get_opportunities (fun _ => Except.ok []) ⟨"DB", "SCH", "TBL"⟩ [] 1 10 ""
        = Except.ok (PyVal.dict [("data", PyVal.list []), ("total_count", PyVal.int 0),
            ("message", PyVal.str "No columns found in opportunities table")])
    ∧ LF.get_opportunities (fun _ => Except.error "boom") ⟨"DB", "SCH", "TBL"⟩ [] 1 10 ""
        = PyVal.dict [("data", PyVal.list []), ("total_count", PyVal.int 0),
            ("message", PyVal.str ("Error accessing opportunities table: " ++ "boom"))] := by
  refine ⟨rfl, ?_, ?_⟩
  · exact empty_schema_and_failure_responses.1 (fun _ => Except.ok [])
      ⟨"DB", "SCH", "TBL"⟩ [] 1 10 "" rfl
  · exact empty_schema_and_failure_responses.2.2.2 (fun _ => Except.error "boom")
      ⟨"DB", "SCH", "TBL"⟩ [] 1 10 "" "boom" rfl

/-! ## C1 -/

/-- C1 counterexample: snowflake.py's special-cased `contract_type`
handler emits the hardcoded column `TYPE` without consulting the
catalog: over the catalog `{"A"}` the compiled clause names `TYPE`,
which is not a member. -/
theorem special_key_emits_foreign_column :
    SF.build_filter_clause [("contract_type", PyVal.list [PyVal.str "X"])] (Option.some ["A"])
      = "\"TYPE\" IN ('X')"
    ∧ ¬ ("TYPE" ∈ (["A"] : List String)) := by
  refine ⟨by decide, by decide⟩

/-- A string appended to is started with. -/
theorem pyStartsWith_append_self (q rest : String) : pyStartsWith (q ++ rest) q = true := by
  simp only [pyStartsWith, String.data_append]
  exact List.isPrefixOf_iff_prefix.mpr (List.prefix_append _ _)

/-- Every condition of snowflake.py's `exact_values` operator dispatch
opens with the quoted field. -/
theorem exact_op_conds_shape_sf {field : String} {obj : Filters} {cond : String}
    (h : cond ∈ SF.exact_op_conds field obj) :
    pyStartsWith cond (quote_identifier field) = true := by
  simp only [SF.exact_op_conds] at h
  repeat' split at h
  all_goals simp only [List.mem_singleton, List.not_mem_nil] at h
  all_goals try subst h
  all_goals first
    | exact absurd h (fun hf => hf)
    | (simp only [pyStartsWith, String.data_append, List.append_assoc]
       exact List.isPrefixOf_iff_prefix.mpr (List.prefix_append _ _))

/-- Every condition of lambda_function.py's `exact_values` operator
dispatch opens with the quoted field. -/
theorem exact_op_conds_shape_lf {field : String} {obj : Filters} {cond : String}
    (h : cond ∈ LF.exact_op_conds field obj) :
    pyStartsWith cond (quote_identifier field) = true := by
  simp only [LF.exact_op_conds] at h
  repeat' split at h
  all_goals simp only [List.mem_singleton, List.not_mem_nil] at h
  all_goals try subst h
  all_goals first
    | exact absurd h (fun hf => hf)
    | (simp only [pyStartsWith, String.data_append, List.append_assoc]
       exact List.isPrefixOf_iff_prefix.mpr (List.prefix_append _ _))

/-- Every bare-value condition of snowflake.py opens with the quoted
field. -/
theorem exact_bare_conds_shape_sf {field : String} {val : PyVal} {cond : String}
    (h : cond ∈ SF.exact_bare_conds field val) :
    pyStartsWith cond (quote_identifier field) = true := by
  simp only [SF.exact_bare_conds] at h
  repeat' split at h
  all_goals simp only [List.mem_singleton, List.not_mem_nil] at h
  all_goals try subst h
  all_goals first
    | exact absurd h (fun hf => hf)
    | (simp only [pyStartsWith, String.data_append, List.append_assoc]
       exact List.isPrefixOf_iff_prefix.mpr (List.prefix_append _ _))

/-- Every bare-value condition of lambda_function.py opens with the
quoted field. -/
theorem exact_bare_conds_shape_lf {field : String} {val : PyVal} {cond : String}
    (h : cond ∈ LF.exact_bare_conds field val) :
    pyStartsWith cond (quote_identifier field) = true := by
  simp only [LF.exact_bare_conds] at h
  repeat' split at h
  all_goals simp only [List.mem_singleton, List.not_mem_nil] at h
  all_goals try subst h
  all_goals first
    | exact absurd h (fun hf => hf)
    | (simp only [pyStartsWith, String.data_append, List.append_assoc]
       exact List.isPrefixOf_iff_prefix.mpr (List.prefix_append _ _))

/-- Every Min/Max condition opens with the quoted catalog column. -/
theorem mem_min_max_catalog {filters : Filters} {cat : List String} {cond : String}
    (hcat : cat ≠ []) (h : cond ∈ min_max_conds filters (Option.some cat)) :
    ∃ c ∈ cat, pyStartsWith cond (quote_identifier c) = true := by
  rcases List.mem_flatMap.mp h with ⟨kv, hkv, h1⟩
  rcases List.mem_append.mp h1 with h2 | h2 <;> {
    split at h2
    case isTrue hc =>
      rw [Bool.and_eq_true] at hc
      have hmem := mem_of_column_exists hcat hc.2
      simp only [List.mem_singleton] at h2
      subst h2
      refine ⟨pyDropRight kv.1 3, hmem, ?_⟩
      simp only [pyStartsWith, String.data_append, List.append_assoc]
      exact List.isPrefixOf_iff_prefix.mpr (List.prefix_append _ _)
    case isFalse hc => simp at h2
  }

/-- Every condition of snowflake.py's generic list stage opens with the
quoted catalog column. -/
theorem mem_list_conds_catalog_sf {filters : Filters} {cat : List String} {cond : String}
    (hcat : cat ≠ []) (h : cond ∈ SF.list_conds filters (Option.some cat)) :
    ∃ c ∈ cat, pyStartsWith cond (quote_identifier c) = true := by
  simp only [SF.list_conds] at h
  rcases List.mem_flatMap.mp h with ⟨kv, hkv, h1⟩
  split at h1
  case h_2 => simp at h1
  case h_1 vs hfv =>
    split at h1
    case isFalse => simp at h1
    case isTrue hc =>
      simp only [Bool.and_eq_true] at hc
      have hce : column_exists (Option.some cat) kv.1 = true := hc.2
      have hmem := mem_of_column_exists hcat hce
      simp only [List.mem_singleton] at h1
      subst h1
      refine ⟨kv.1, hmem, ?_⟩
      simp only [pyStartsWith, String.data_append, List.append_assoc]
      exact List.isPrefixOf_iff_prefix.mpr (List.prefix_append _ _)

/-- Every condition of lambda_function.py's generic list stage opens
with the quoted catalog column. -/
theorem mem_list_conds_catalog_lf {filters : Filters} {cat : List String} {cond : String}
    (hcat : cat ≠ []) (h : cond ∈ LF.list_conds filters (Option.some cat)) :
    ∃ c ∈ cat, pyStartsWith cond (quote_identifier c) = true := by
  simp only [LF.list_conds] at h
  rcases List.mem_flatMap.mp h with ⟨kv, hkv, h1⟩
  split at h1
  case h_2 => simp at h1
  case h_1 vs hfv =>
    split at h1
    case isFalse => simp at h1
    case isTrue hc =>
      simp only [Bool.and_eq_true] at hc
      have hce : column_exists (Option.some cat) kv.1 = true := hc.2
      have hmem := mem_of_column_exists hcat hce
      simp only [List.mem_singleton] at h1
      subst h1
      refine ⟨kv.1, hmem, ?_⟩
      simp only [pyStartsWith, String.data_append, List.append_assoc]
      exact List.isPrefixOf_iff_prefix.mpr (List.prefix_append _ _)

/-- Every dataAvailability condition is a parenthesized join of parts,
each opening with a quoted catalog column. -/
theorem mem_avail_conds_catalog {filters : Filters} {cat : List String} {op cond : String}
    (hcat : cat ≠ []) (h : cond ∈ data_availability_conds filters (Option.some cat) op) :
    ∃ parts : List String,
      cond = "(" ++ String.intercalate (" " ++ op ++ " ") parts ++ ")"
      ∧ ∀ p ∈ parts, ∃ c ∈ cat, pyStartsWith p (quote_identifier c) = true := by
  simp only [data_availability_conds] at h
  split at h
  case h_2 => simp at h
  case h_1 fields hfv =>
    split at h
    case isTrue => simp at h
    case isFalse =>
      split at h
      case isTrue => simp at h
      case isFalse =>
        simp only [List.mem_singleton] at h
        subst h
        refine ⟨_, rfl, ?_⟩
        intro p hp
        rcases List.mem_filterMap.mp hp with ⟨field, hf, hpf⟩
        split at hpf
        case h_2 => simp at hpf
        case h_1 f =>
          split at hpf
          case isFalse => simp at hpf
          case isTrue hce =>
            have hmem := mem_of_column_exists hcat hce
            simp only [Option.some.injEq] at hpf
            subst hpf
            refine ⟨f, hmem, ?_⟩
            simp only [pyStartsWith, String.data_append, List.append_assoc]
            exact List.isPrefixOf_iff_prefix.mpr (List.prefix_append _ _)

/-- Every condition of snowflake.py's `exact_values` stage opens with a
quoted catalog column. -/
theorem mem_exact_value_conds_catalog_sf {filters : Filters} {cat : List String} {cond : String}
    (hcat : cat ≠ []) (h : cond ∈ SF.exact_value_conds filters (Option.some cat)) :
    ∃ c ∈ cat, pyStartsWith cond (quote_identifier c) = true := by
  simp only [SF.exact_value_conds] at h
  split at h
  case h_2 => simp at h
  case h_1 entries hfv =>
    split at h
    case isTrue => simp at h
    case isFalse =>
      rcases List.mem_flatMap.mp h with ⟨fv, hfvm, h1⟩
      split at h1
      case isFalse => simp at h1
      case isTrue hce =>
        have hmem := mem_of_column_exists hcat hce
        split at h1
        case h_1 obj =>
          split at h1
          case isTrue => exact ⟨fv.1, hmem, exact_op_conds_shape_sf h1⟩
          case isFalse => exact ⟨fv.1, hmem, exact_bare_conds_shape_sf h1⟩
        case h_2 => exact ⟨fv.1, hmem, exact_bare_conds_shape_sf h1⟩

/-- Every condition of lambda_function.py's `exact_values` stage opens
with a quoted catalog column. -/
theorem mem_exact_value_conds_catalog_lf {filters : Filters} {cat : List String} {cond : String}
    (hcat : cat ≠ []) (h : cond ∈ LF.exact_value_conds filters (Option.some cat)) :
    ∃ c ∈ cat, pyStartsWith cond (quote_identifier c) = true := by
  simp only [LF.exact_value_conds] at h
  split at h
  case h_2 => simp at h
  case h_1 entries hfv =>
    split at h
    case isTrue => simp at h
    case isFalse =>
      rcases List.mem_flatMap.mp h with ⟨fv, hfvm, h1⟩
      split at h1
      case isFalse => simp at h1
      case isTrue hce =>
        have hmem := mem_of_column_exists hcat hce
        split at h1
        case h_1 obj =>
          split at h1
          case isTrue => exact ⟨fv.1, hmem, exact_op_conds_shape_lf h1⟩
          case isFalse => exact ⟨fv.1, hmem, exact_bare_conds_shape_lf h1⟩
        case h_2 => exact ⟨fv.1, hmem, exact_bare_conds_shape_lf h1⟩

/-- C1 amended: over a non-empty catalog, every condition emitted by the
GENERIC stages of both compilers — range Min/Max, membership lists,
dataAvailability, exact_values — is built on a column that passed the
catalog check (each condition opens with that quoted catalog column),
and the search clause only uses searchable columns drawn from the
catalog.  The original invariant fails for snowflake.py's eleven
special-cased keys, which emit hardcoded column identifiers regardless
of the catalog, and the allow-list is disabled altogether when the
catalog is absent or empty. -/
theorem generic_stage_columns_from_catalog (filters : Filters) (cat : List String)
    (op : String) (hcat : cat ≠ []) :
    (∀ cond ∈ min_max_conds filters (Option.some cat),
      ∃ c ∈ cat, pyStartsWith cond (quote_identifier c) = true)
    ∧ (∀ cond ∈ SF.list_conds filters (Option.some cat),
      ∃ c ∈ cat, pyStartsWith cond (quote_identifier c) = true)
    ∧ (∀ cond ∈ LF.list_conds filters (Option.some cat),
      ∃ c ∈ cat, pyStartsWith cond (quote_identifier c) = true)
    ∧ (∀ cond ∈ data_availability_conds filters (Option.some cat) op,
      ∃ parts : List String,
        cond = "(" ++ String.intercalate (" " ++ op ++ " ") parts ++ ")"
        ∧ ∀ p ∈ parts, ∃ c ∈ cat, pyStartsWith p (quote_identifier c) = true)
    ∧ (∀ cond ∈ SF.exact_value_conds filters (Option.some cat),
      ∃ c ∈ cat, pyStartsWith cond (quote_identifier c) = true)
    ∧ (∀ cond ∈ LF.exact_value_conds filters (Option.some cat),
      ∃ c ∈ cat, pyStartsWith cond (quote_identifier c) = true)
    ∧ (∀ col ∈ text_columns cat, col ∈ cat) := by
  refine ⟨fun cond h => mem_min_max_catalog hcat h,
    fun cond h => mem_list_conds_catalog_sf hcat h,
    fun cond h => mem_list_conds_catalog_lf hcat h,
    fun cond h => mem_avail_conds_catalog hcat h,
    fun cond h => mem_exact_value_conds_catalog_sf hcat h,
    fun cond h => mem_exact_value_conds_catalog_lf hcat h,
    fun col h => ?_⟩
  simp only [text_columns] at h
  exact (List.mem_filter.mp h).1

/-- Witness for C1 amended: instantiated at a one-key range filter over
the catalog `{"A"}`. -/
theorem generic_stage_columns_from_catalog_witness :
    ((["A"] : List String) ≠ [])
    ∧ (∀ cond ∈ min_max_conds [("AMin", PyVal.int 1)] (Option.some ["A"]),
        ∃ c ∈ (["A"] : List String), pyStartsWith cond (quote_identifier c) = true) := by
  exact ⟨by decide,
    (generic_stage_columns_from_catalog [("AMin", PyVal.int 1)] ["A"] "AND" (by decide)).1⟩
